import Mathlib

/-!
# Verification of the WardenAPI client (`src/client.ts`, `src/types.ts`)

A shallow embedding of the request/retry pipeline of the `WardenAPI`
TypeScript class and its lookup façade, together with theorems about the
claimed behaviour.

Modelling conventions:
* JavaScript numbers produced by `parseInt` are modelled by `JsNum`
  (`nan` or an integer), since `parseInt` returns `NaN` on strings with
  no leading digits.
* JSON values are the inductive `Json`; `response.json()` is the `body`
  field of `HttpResponse`, an `Except String Json` whose `error` case is
  the raised parse exception (with its message).
* The network is an environment `env : Nat → AttemptOutcome` giving, for
  each attempt index, either a rejected fetch (transport failure /
  timeout abort) or an HTTP response.  The URL, headers and request body
  built by the client do not influence classification, so they are
  abstracted into the environment.
* Timed sleeps are observable: `makeRequest` returns the ordered list of
  delays (in milliseconds, as `JsNum` since a `NaN` can reach
  `setTimeout`) together with the number of attempts performed.
-/

/-- A JavaScript number as produced by `parseInt`: either `NaN` or an
integer (all values appearing here are integral). -/
inductive JsNum where
  | nan : JsNum
  | int : Int → JsNum
deriving DecidableEq, Repr

/-- Multiplication by a natural constant, `NaN`-propagating, as in
`parseInt(...) * 1000`. -/
def JsNum.mulNat : JsNum → Nat → JsNum
  | .nan, _ => .nan
  | .int n, k => .int (n * (k : Int))

/-- Numeric value of a list of decimal digits. -/
def digitsToNat (ds : List Char) : Nat :=
  ds.foldl (fun acc c => acc * 10 + (c.toNat - 48)) 0

/-- Model of JavaScript `parseInt(s)` (radix 10, which is the only radix
this client can receive: hex prefixes are not produced by the numeric
headers involved): skip leading whitespace, read an optional sign and
then the maximal run of leading decimal digits; `NaN` when there is no
digit. -/
def jsParseInt (s : String) : JsNum :=
  let cs := s.toList.dropWhile (fun c => c = ' ' ∨ c = '\t' ∨ c = '\n' ∨ c = '\r')
  let signed : Bool × List Char :=
    match cs with
    | '-' :: rest => (true, rest)
    | '+' :: rest => (false, rest)
    | _ => (false, cs)
  let ds := signed.2.takeWhile Char.isDigit
  if ds.isEmpty then .nan
  else .int (if signed.1 then -(digitsToNat ds : Int) else (digitsToNat ds : Int))

/-- JSON values (the possible results of `response.json()`). -/
inductive Json where
  | null : Json
  | bool : Bool → Json
  | num : Int → Json
  | str : String → Json
  | arr : List Json → Json
  | obj : List (String × Json) → Json
deriving Repr

/-- JavaScript truthiness of a JSON value. -/
def jsTruthy : Json → Bool
  | .null => false
  | .bool b => b
  | .num n => n ≠ 0
  | .str s => s ≠ ""
  | .arr _ => true
  | .obj _ => true

/-- Optional-chained property access `v?.k`: `none` models `undefined`
(absent field, or any receiver without such a property). -/
def jsGetField : Json → String → Option Json
  | .obj fields, k => (fields.find? (fun p => p.1 = k)).map (fun p => p.2)
  | _, _ => none

mutual
/-- JavaScript `String(v)` coercion for JSON values. -/
def jsToString : Json → String
  | .null => "null"
  | .bool true => "true"
  | .bool false => "false"
  | .num n => toString n
  | .str s => s
  | .arr xs => jsArrToString xs
  | .obj _ => "[object Object]"

/-- Array-to-string coercion: elements joined by commas, `null` printing
as the empty string inside an array. -/
def jsArrToString : List Json → String
  | [] => ""
  | [Json.null] => ""
  | [x] => jsToString x
  | Json.null :: xs => "," ++ jsArrToString xs
  | x :: xs => jsToString x ++ "," ++ jsArrToString xs
end

/-- Truthiness of `headers.get(name)`: non-null and nonempty. -/
def strTruthy : Option String → Bool
  | none => false
  | some s => s ≠ ""

/-- JavaScript `v || d` for a possibly-null string. -/
def jsOrString (v : Option String) (d : String) : String :=
  match v with
  | none => d
  | some s => if s = "" then d else s

/-- JavaScript `v || d` for a possibly-undefined number: `0` (falsy) is
replaced by the default. -/
def jsOrNum (v : Option Int) (d : Int) : Int :=
  match v with
  | none => d
  | some n => if n = 0 then d else n

/-- `RateLimitInfo` from `types.ts`, fields as produced by `parseInt`. -/
structure RateLimitInfo where
  limit : JsNum
  remaining : JsNum
  reset : JsNum
  retryAfter : Option JsNum
deriving DecidableEq, Repr

/-- An HTTP response as observed by the client: status, status text,
header lookup, and the one-shot result of `response.json()`
(`Except.error msg` models the body failing to parse, raising an
exception with message `msg`). -/
structure HttpResponse where
  status : Nat
  statusText : String
  headers : String → Option String
  body : Except String Json

/-- The fetch `Response.ok` predicate: status in the 2xx range. -/
def respOk (status : Nat) : Bool :=
  200 ≤ status && status < 300

/-- `WardenAPI.extractRateLimit`: present only when the three
`X-RateLimit-*` headers are all non-null and nonempty; values go
through `parseInt` unvalidated. -/
def extractRateLimit (r : HttpResponse) : Option RateLimitInfo :=
  let limit := r.headers "X-RateLimit-Limit"
  let remaining := r.headers "X-RateLimit-Remaining"
  let reset := r.headers "X-RateLimit-Reset"
  let retryAfter := r.headers "Retry-After"
  if strTruthy limit && strTruthy remaining && strTruthy reset then
    some { limit := jsParseInt (limit.getD "")
           remaining := jsParseInt (remaining.getD "")
           reset := jsParseInt (reset.getD "")
           retryAfter := if strTruthy retryAfter then some (jsParseInt (retryAfter.getD "")) else none }
  else
    none

/-- `WardenAPI.safeJsonParse`: the parsed body, or `null` when parsing
throws. -/
def safeJsonParse (r : HttpResponse) : Json :=
  match r.body with
  | .ok j => j
  | .error _ => .null

/-- `WardenAPIError` from `types.ts`. -/
structure WardenAPIError where
  message : String
  statusCode : Option Nat
  responseData : Json
  rateLimit : Option RateLimitInfo

/-- A thrown JavaScript error: either a `WardenAPIError` or a raw
exception (network failure, timeout abort, JSON parse error), carrying
its message. -/
inductive JsError where
  | warden : WardenAPIError → JsError
  | raw : String → JsError

/-- The successful return value of `makeRequest`:
`{ ...data, rateLimit }`. -/
structure SuccessValue where
  data : Json
  rateLimit : Option RateLimitInfo

/-- What one `fetch` call does: reject (transport failure / timeout) or
resolve to a response. -/
inductive AttemptOutcome where
  | fetchError : String → AttemptOutcome
  | response : HttpResponse → AttemptOutcome

/-- The observable result of a `makeRequest` invocation: its outcome,
the ordered delays slept (milliseconds), and how many attempts ran. -/
structure RunResult where
  result : Except JsError SuccessValue
  delays : List JsNum
  attemptsMade : Nat

/-- The exponential backoff delay `Math.pow(2, attempt) * 1000`. -/
def backoffDelay (attempt : Nat) : JsNum :=
  .int ((2 ^ attempt * 1000 : Nat))

/-- The 429 sleep `parseInt(headers.get('Retry-After') || '1') * 1000`:
a missing or empty header defaults to `"1"`, an unparsable one yields
`NaN`. -/
def retryAfterDelay (r : HttpResponse) : JsNum :=
  (jsParseInt (jsOrString (r.headers "Retry-After") "1")).mulNat 1000

/-- The generic failure message `HTTP <status>: <statusText>`. -/
def genericHttpMessage (r : HttpResponse) : String :=
  "HTTP " ++ toString r.status ++ ": " ++ r.statusText

/-- `errorData?.error || genericMessage`: the safe-parsed body's `error`
field when truthy, else the generic message. -/
def errorMessageOf (r : HttpResponse) : String :=
  match jsGetField (safeJsonParse r) "error" with
  | some v => if jsTruthy v then jsToString v else genericHttpMessage r
  | none => genericHttpMessage r

/-- The body of `WardenAPI.makeRequest`'s `for` loop, one constructor of
`fuel` per iteration.  `fuel` is `retries + 1 - attempt`, so the base
case is the (unreachable) `throw lastError!` after the loop; `lastError`
is the last caught error, `none` before any catch ran. -/
def requestLoop (retries : Nat) (env : Nat → AttemptOutcome) :
    Nat → Nat → Option JsError → RunResult
  | 0, _, lastError =>
      { result := .error (lastError.getD (.raw "lastError unset"))
        delays := []
        attemptsMade := 0 }
  | fuel + 1, attempt, _lastError =>
      match env attempt with
      | .fetchError msg =>
          -- fetch rejected: caught by the catch block
          let e : JsError := .raw msg
          if attempt = retries then
            { result := .error e, delays := [], attemptsMade := 1 }
          else
            let rest := requestLoop retries env fuel (attempt + 1) (some e)
            { result := rest.result
              delays := backoffDelay attempt :: rest.delays
              attemptsMade := rest.attemptsMade + 1 }
      | .response r =>
          let rateLimit := extractRateLimit r
          if respOk r.status then
            match r.body with
            | .ok data =>
                { result := .ok { data := data, rateLimit := rateLimit }
                  delays := []
                  attemptsMade := 1 }
            | .error msg =>
                -- response.json() threw on a 2xx body: caught by the catch block
                let e : JsError := .raw msg
                if attempt = retries then
                  { result := .error e, delays := [], attemptsMade := 1 }
                else
                  let rest := requestLoop retries env fuel (attempt + 1) (some e)
                  { result := rest.result
                    delays := backoffDelay attempt :: rest.delays
                    attemptsMade := rest.attemptsMade + 1 }
          else
            if r.status = 429 ∧ attempt < retries then
              let rest := requestLoop retries env fuel (attempt + 1) _lastError
              { result := rest.result
                delays := retryAfterDelay r :: rest.delays
                attemptsMade := rest.attemptsMade + 1 }
            else
              -- WardenAPIError thrown, caught, and rethrown by the catch block
              { result := .error (.warden
                  { message := errorMessageOf r
                    statusCode := some r.status
                    responseData := safeJsonParse r
                    rateLimit := rateLimit })
                delays := []
                attemptsMade := 1 }

/-- `WardenAPI.makeRequest` with retry budget `retries`
(`this.config.retries`) against the network environment `env`. -/
def makeRequest (retries : Nat) (env : Nat → AttemptOutcome) : RunResult :=
  requestLoop retries env (retries + 1) 0 none

/-- `WardenConfig` from `types.ts`; `none` models an omitted (or, for
`apiKey`, `undefined`) field. -/
structure WardenConfig where
  apiKey : Option String
  baseUrl : Option String
  timeout : Option Int
  retries : Option Int

/-- The resolved `Required<WardenConfig>` held by the client; stored in
a `private readonly` field, so it is immutable after construction (as is
everything in this pure model). -/
structure ResolvedConfig where
  apiKey : String
  baseUrl : String
  timeout : Int
  retries : Int
deriving DecidableEq, Repr

/-- Truthiness of `config.apiKey`: defined and nonempty. -/
def apiKeyTruthy (c : WardenConfig) : Bool :=
  strTruthy c.apiKey

/-- `String.startsWith` modelled over character lists (the library
implementation is positional and does not reduce definitionally). -/
def strStartsWith (s pre : String) : Bool :=
  pre.toList.isPrefixOf s.toList

/-- The `WardenAPI` constructor: validates the key, then fills defaults
with `||` (so falsy explicit values are replaced too). -/
def mkWardenAPI (c : WardenConfig) : Except String ResolvedConfig :=
  if ¬ apiKeyTruthy c then
    .error "API key is required"
  else if ¬ strStartsWith (c.apiKey.getD "") "wd_" then
    .error "API key must start with \"wd_\""
  else
    .ok { apiKey := c.apiKey.getD ""
          baseUrl := jsOrString c.baseUrl "https://api.iitranq.co.uk/api/v1"
          timeout := jsOrNum c.timeout 10000
          retries := jsOrNum c.retries 3 }

/-- A lookup façade result: either the `makeRequest` success value, or
the soft not-found record `{ error: msg }`. -/
inductive LookupResponse where
  | payload : SuccessValue → LookupResponse
  | softError : String → LookupResponse

/-- The façade's 404 test: `error instanceof WardenAPIError &&
error.statusCode === 404`. -/
def is404 : JsError → Bool
  | .warden e => e.statusCode = some 404
  | .raw _ => false

/-- `WardenAPI.checkServerById` (`POST /server`, body
`{data:{type:'id',id}}`): delegates to `makeRequest`, downgrading a 404
`WardenAPIError` to `{ error: 'Server not found' }`. -/
def checkServerById (retries : Nat) (env : Nat → AttemptOutcome) (_serverId : String) :
    Except JsError LookupResponse :=
  match (makeRequest retries env).result with
  | .ok v => .ok (.payload v)
  | .error e => if is404 e then .ok (.softError "Server not found") else .error e

/-- `WardenAPI.checkServerByName` (`POST /server`, body
`{data:{type:'name',name}}`): same 404 downgrade. -/
def checkServerByName (retries : Nat) (env : Nat → AttemptOutcome) (_serverName : String) :
    Except JsError LookupResponse :=
  match (makeRequest retries env).result with
  | .ok v => .ok (.payload v)
  | .error e => if is404 e then .ok (.softError "Server not found") else .error e

/-- `WardenAPI.checkServers` (`POST /servers`): no catch — every
`makeRequest` outcome, 404 included, passes through. -/
def checkServers (retries : Nat) (env : Nat → AttemptOutcome)
    (_servers : List (Option String × Option String)) : Except JsError SuccessValue :=
  (makeRequest retries env).result

/-- `WardenAPI.checkUserById` (`POST /user`): 404 downgraded to
`{ error: 'User not found' }`. -/
def checkUserById (retries : Nat) (env : Nat → AttemptOutcome) (_userId : String) :
    Except JsError LookupResponse :=
  match (makeRequest retries env).result with
  | .ok v => .ok (.payload v)
  | .error e => if is404 e then .ok (.softError "User not found") else .error e

/-- `WardenAPI.getServerInfo` (`GET /server/{id}`): 404 downgraded to
`{ error: 'Server not found' }`. -/
def getServerInfo (retries : Nat) (env : Nat → AttemptOutcome) (_serverId : String) :
    Except JsError LookupResponse :=
  match (makeRequest retries env).result with
  | .ok v => .ok (.payload v)
  | .error e => if is404 e then .ok (.softError "Server not found") else .error e

/-- Truthiness of `response.error` on a façade result (the merged object
`{...data, rateLimit}` exposes `data`'s fields). -/
def respErrorTruthy : LookupResponse → Bool
  | .softError msg => msg ≠ ""
  | .payload v =>
      match jsGetField v.data "error" with
      | some j => jsTruthy j
      | none => false

/-- Truthiness of `response?.id` on a façade result (the soft record has
no `id` property). -/
def respIdTruthy : LookupResponse → Bool
  | .softError _ => false
  | .payload v =>
      match jsGetField v.data "id" with
      | some j => jsTruthy j
      | none => false

/-- `WardenAPI.isServerFlagged`:
`!response.error && !!response?.id` over `getServerInfo`. -/
def isServerFlagged (retries : Nat) (env : Nat → AttemptOutcome) (serverId : String) :
    Except JsError Bool :=
  match getServerInfo retries env serverId with
  | .error e => .error e
  | .ok resp => .ok (!respErrorTruthy resp && respIdTruthy resp)

/-- `WardenAPI.isUserFlagged`:
`!response.error && !!response?.id` over `checkUserById`. -/
def isUserFlagged (retries : Nat) (env : Nat → AttemptOutcome) (userId : String) :
    Except JsError Bool :=
  match checkUserById retries env userId with
  | .error e => .error e
  | .ok resp => .ok (!respErrorTruthy resp && respIdTruthy resp)

/-- The raw (non-`WardenAPIError`) failure an attempt produces, if any:
a rejected fetch, or a 2xx response whose body fails to parse. -/
def rawFailure : AttemptOutcome → Option String
  | .fetchError msg => some msg
  | .response r =>
      if respOk r.status then
        match r.body with
        | .ok _ => none
        | .error msg => some msg
      else
        none

/-- One loop iteration on an attempt whose outcome is a raw failure
(rejected fetch, or 2xx body that fails to parse): last attempt
rethrows, earlier attempts sleep the exponential backoff and recurse. -/
theorem requestLoop_raw_step (retries fuel attempt : Nat) (env : Nat → AttemptOutcome)
    (lastError : Option JsError) (m : String)
    (h : rawFailure (env attempt) = some m) :
    requestLoop retries env (fuel + 1) attempt lastError =
      if attempt = retries then
        { result := .error (.raw m), delays := [], attemptsMade := 1 }
      else
        { result := (requestLoop retries env fuel (attempt + 1) (some (.raw m))).result
          delays := backoffDelay attempt ::
            (requestLoop retries env fuel (attempt + 1) (some (.raw m))).delays
          attemptsMade :=
            (requestLoop retries env fuel (attempt + 1) (some (.raw m))).attemptsMade + 1 } := by
  cases he : env attempt with
  | fetchError m' =>
      rw [he] at h
      simp only [rawFailure, Option.some.injEq] at h
      subst h
      simp [requestLoop, he]
  | response r =>
      rw [he] at h
      simp only [rawFailure] at h
      split at h
      · next hok =>
          cases hb : r.body with
          | ok j => rw [hb] at h; simp at h
          | error m' =>
              rw [hb] at h
              simp only [Option.some.injEq] at h
              subst h
              simp [requestLoop, he, hok, hb]
      · simp at h

/-- Running the loop from `attempt` with exact remaining fuel, when
every attempt up to the budget fails with a raw error: the last
attempt's error surfaces, with one exponential backoff sleep between
consecutive attempts. -/
theorem requestLoop_raw_run (retries : Nat) (env : Nat → AttemptOutcome) (msg : Nat → String)
    (H : ∀ i, i ≤ retries → rawFailure (env i) = some (msg i)) :
    ∀ k attempt, attempt + k = retries → ∀ lastError,
      requestLoop retries env (k + 1) attempt lastError =
        { result := .error (.raw (msg retries))
          delays := (List.range' attempt k).map backoffDelay
          attemptsMade := k + 1 } := by
  intro k
  induction k with
  | zero =>
      intro attempt hak lastError
      have ha : attempt = retries := by omega
      rw [requestLoop_raw_step retries 0 attempt env lastError (msg attempt)
        (H attempt (by omega)), if_pos ha, ha]
      simp [List.range']
  | succ k ih =>
      intro attempt hak lastError
      have ha : attempt ≠ retries := by omega
      rw [requestLoop_raw_step retries (k + 1) attempt env lastError (msg attempt)
        (H attempt (by omega)), if_neg ha,
        ih (attempt + 1) (by omega) (some (.raw (msg attempt)))]
      simp [List.range']

/-- C1: the attempt loop runs attempt indices `0..retries` inclusive
(`retries + 1` attempts); when every attempt fails with a transport
error the last attempt's original transport error is surfaced, and
between consecutive attempts an exponential backoff of
`2^attemptIndex` seconds (1000 ms, 2000 ms, 4000 ms, ...) is slept. -/
theorem warden_transport_exhaustion (retries : Nat) (env : Nat → AttemptOutcome)
    (msg : Nat → String) (H : ∀ i, i ≤ retries → env i = .fetchError (msg i)) :
    makeRequest retries env =
      { result := .error (.raw (msg retries))
        delays := (List.range retries).map backoffDelay
        attemptsMade := retries + 1 } := by
  have hraw : ∀ i, i ≤ retries → rawFailure (env i) = some (msg i) := by
    intro i hi
    rw [H i hi]
    rfl
  rw [makeRequest, requestLoop_raw_run retries env msg hraw retries 0 (by omega) none,
    List.range_eq_range']

/-- An environment in which every fetch rejects with a distinct
transport error. -/
def envTransportFail : Nat → AttemptOutcome :=
  fun i => .fetchError ("network failure " ++ toString i)

/-- Witness for C1 at `retries = 3`: four attempts, the last attempt's
error surfaced, sleeps of 1 s, 2 s, 4 s in between. -/
theorem warden_transport_exhaustion_witness :
    makeRequest 3 envTransportFail =
      { result := .error (.raw "network failure 3")
        delays := [.int 1000, .int 2000, .int 4000]
        attemptsMade := 4 } := by
  have h := warden_transport_exhaustion 3 envTransportFail
    (fun i => "network failure " ++ toString i) (fun i _ => rfl)
  simpa using h

/-- C10: a 2xx response whose body fails JSON parsing is handled by the
generic catch like a transport failure: retried with exponential
backoff while attempts remain, and the raw parse exception (never a
`WardenAPIError`) surfaces only on the final attempt — with
`retries + 1` attempts performed in total, not one. -/
theorem warden_ok_parse_failure_retried (retries : Nat) (env : Nat → AttemptOutcome)
    (resp : Nat → HttpResponse) (msg : Nat → String)
    (Henv : ∀ i, i ≤ retries → env i = .response (resp i))
    (Hok : ∀ i, i ≤ retries → respOk (resp i).status = true)
    (Hbody : ∀ i, i ≤ retries → (resp i).body = .error (msg i)) :
    makeRequest retries env =
      { result := .error (.raw (msg retries))
        delays := (List.range retries).map backoffDelay
        attemptsMade := retries + 1 } := by
  have hraw : ∀ i, i ≤ retries → rawFailure (env i) = some (msg i) := by
    intro i hi
    rw [Henv i hi]
    simp [rawFailure, Hok i hi, Hbody i hi]
  rw [makeRequest, requestLoop_raw_run retries env msg hraw retries 0 (by omega) none,
    List.range_eq_range']

/-- A 200 OK response whose body raises the given parse error. -/
def okUnparsableResp (i : Nat) : HttpResponse :=
  { status := 200
    statusText := "OK"
    headers := fun _ => none
    body := .error ("invalid json " ++ toString i) }

/-- The environment serving `okUnparsableResp` on every attempt. -/
def envOkUnparsable : Nat → AttemptOutcome :=
  fun i => .response (okUnparsableResp i)

/-- Witness for C10 at `retries = 2`: three attempts, backoff sleeps of
1 s and 2 s, and the third attempt's raw parse error surfaced. -/
theorem warden_ok_parse_failure_retried_witness :
    makeRequest 2 envOkUnparsable =
      { result := .error (.raw "invalid json 2")
        delays := [.int 1000, .int 2000]
        attemptsMade := 3 } := by
  have h := warden_ok_parse_failure_retried 2 envOkUnparsable okUnparsableResp
    (fun i => "invalid json " ++ toString i) (fun i _ => rfl) (fun i _ => rfl) (fun i _ => rfl)
  simpa using h

/-- A 429 response whose `Retry-After` header is present but not a
number. -/
def resp429Soon : HttpResponse :=
  { status := 429
    statusText := "Too Many Requests"
    headers := fun k => if k = "Retry-After" then some "soon" else none
    body := .ok (Json.obj []) }

/-- A 200 response with an empty JSON object body and no headers. -/
def respOkEmpty : HttpResponse :=
  { status := 200
    statusText := "OK"
    headers := fun _ => none
    body := .ok (Json.obj []) }

/-- Environment: 429 with unparsable `Retry-After` on attempt 0, then
success. -/
def env429Soon : Nat → AttemptOutcome :=
  fun i => if i = 0 then .response resp429Soon else .response respOkEmpty

/-- Counterexample to C2 as stated: with `Retry-After: soon`
(unparsable) on a retried 429, the observed sleep is
`parseInt("soon") * 1000 = NaN`, not the claimed 1-second default. -/
theorem warden_retry_after_unparsable_cex :
    (makeRequest 1 env429Soon).delays = [JsNum.nan] ∧ JsNum.nan ≠ JsNum.int 1000 := by
  constructor
  · rfl
  · decide

/-- C2 (amended): a 429 at an attempt index below `retries` sleeps
`parseInt(retryAfterHeader || "1") * 1000` milliseconds and proceeds to
the next attempt without counting as a final failure; the 1-second
default applies only when the header is absent (or empty) — an
unparsable header yields a `NaN` sleep instead; a 429 on the last
attempt fails with a `WardenAPIError` carrying the rate-limit
metadata. -/
theorem warden_rate_limit_retry (retries : Nat) (env : Nat → AttemptOutcome)
    (r : HttpResponse) (h429 : r.status = 429) (henv : env 0 = .response r) :
    (0 < retries →
      makeRequest retries env =
        { result := (requestLoop retries env retries 1 none).result
          delays := retryAfterDelay r :: (requestLoop retries env retries 1 none).delays
          attemptsMade := (requestLoop retries env retries 1 none).attemptsMade + 1 }) ∧
    (r.headers "Retry-After" = none → retryAfterDelay r = .int 1000) ∧
    (∀ n : Int, jsParseInt (jsOrString (r.headers "Retry-After") "1") = .int n →
      retryAfterDelay r = .int (n * 1000)) ∧
    (jsParseInt (jsOrString (r.headers "Retry-After") "1") = .nan →
      retryAfterDelay r = .nan) ∧
    (retries = 0 →
      makeRequest retries env =
        { result := .error (.warden
            { message := errorMessageOf r
              statusCode := some 429
              responseData := safeJsonParse r
              rateLimit := extractRateLimit r })
          delays := []
          attemptsMade := 1 }) := by
  refine ⟨?_, ?_, ?_, ?_, ?_⟩
  · intro hpos
    have hnotok : respOk 429 = false := rfl
    simp [makeRequest, requestLoop, henv, hnotok, h429, hpos]
  · intro habs
    rw [retryAfterDelay, habs]
    rfl
  · intro n hn
    rw [retryAfterDelay, hn]
    rfl
  · intro hn
    rw [retryAfterDelay, hn]
    rfl
  · intro h0
    subst h0
    have hnotok : respOk 429 = false := rfl
    simp [makeRequest, requestLoop, henv, hnotok, h429]

/-- A 429 response with no `Retry-After` header at all. -/
def resp429Bare : HttpResponse :=
  { status := 429
    statusText := "Too Many Requests"
    headers := fun _ => none
    body := .ok (Json.obj []) }

/-- Environment: bare 429 on attempt 0, then success. -/
def env429Bare : Nat → AttemptOutcome :=
  fun i => if i = 0 then .response resp429Bare else .response respOkEmpty

/-- Witness for C2 (amended) at `retries = 1`: the absent header gives
the 1-second default sleep, the call proceeds and succeeds on the
second attempt. -/
theorem warden_rate_limit_retry_witness :
    makeRequest 1 env429Bare =
      { result := .ok { data := Json.obj [], rateLimit := none }
        delays := [.int 1000]
        attemptsMade := 2 } := by
  have h := warden_rate_limit_retry 1 env429Bare resp429Bare rfl rfl
  rw [h.1 (by omega), h.2.1 rfl]
  rfl

/-- C3: a non-2xx response that is not a retryable 429 fails
immediately — one attempt, no sleeps, no retries regardless of
remaining budget — with a `WardenAPIError` whose message is the body's
truthy `error` field when the body parses and carries one, else the
generic `HTTP <status>: <statusText>`; a body that fails to parse
yields a `null` body on the error, not an exception. -/
theorem warden_domain_error_immediate (retries : Nat) (env : Nat → AttemptOutcome)
    (r : HttpResponse) (hnotok : respOk r.status = false)
    (hnr : ¬ (r.status = 429 ∧ 0 < retries)) (henv : env 0 = .response r) :
    makeRequest retries env =
      { result := .error (.warden
          { message := errorMessageOf r
            statusCode := some r.status
            responseData := safeJsonParse r
            rateLimit := extractRateLimit r })
        delays := []
        attemptsMade := 1 } ∧
    (∀ j v, r.body = .ok j → jsGetField j "error" = some v → jsTruthy v = true →
      errorMessageOf r = jsToString v) ∧
    (∀ j, r.body = .ok j → jsGetField j "error" = none →
      errorMessageOf r = genericHttpMessage r) ∧
    (∀ m, r.body = .error m →
      safeJsonParse r = Json.null ∧ errorMessageOf r = genericHttpMessage r) := by
  refine ⟨?_, ?_, ?_, ?_⟩
  · simp [makeRequest, requestLoop, henv, hnotok, hnr]
  · intro j v hb hf ht
    simp [errorMessageOf, safeJsonParse, hb, hf, ht]
  · intro j hb hf
    simp [errorMessageOf, safeJsonParse, hb, hf]
  · intro m hb
    simp [errorMessageOf, safeJsonParse, hb, jsGetField]

/-- A 500 response whose JSON body carries a truthy `error` field. -/
def resp500Boom : HttpResponse :=
  { status := 500
    statusText := "Internal Server Error"
    headers := fun _ => none
    body := .ok (Json.obj [("error", Json.str "boom")]) }

/-- Environment serving the 500 response on every attempt. -/
def env500Boom : Nat → AttemptOutcome :=
  fun _ => .response resp500Boom

/-- Witness for C3 at `retries = 3`: the 500 fails on the first attempt
with the body's `error` field as message, no sleeps and no retries. -/
theorem warden_domain_error_immediate_witness :
    makeRequest 3 env500Boom =
      { result := .error (.warden
          { message := "boom"
            statusCode := some 500
            responseData := Json.obj [("error", Json.str "boom")]
            rateLimit := none })
        delays := []
        attemptsMade := 1 } := by
  have h := warden_domain_error_immediate 3 env500Boom resp500Boom rfl (by decide) rfl
  have hmsg := h.2.1 (Json.obj [("error", Json.str "boom")]) (Json.str "boom") rfl rfl rfl
  rw [h.1, hmsg]
  rfl

/-- C5: a response passing the transport's `ok` predicate returns, on
the first attempt with no sleeps, the decoded JSON body merged with the
extracted rate-limit info; and the merged rate-limit field is absent
whenever the rate-limit headers are incomplete. -/
theorem warden_success_merge (retries : Nat) (env : Nat → AttemptOutcome)
    (r : HttpResponse) (data : Json) (henv : env 0 = .response r)
    (hok : respOk r.status = true) (hbody : r.body = .ok data) :
    makeRequest retries env =
      { result := .ok { data := data, rateLimit := extractRateLimit r }
        delays := []
        attemptsMade := 1 } ∧
    ((strTruthy (r.headers "X-RateLimit-Limit") &&
      strTruthy (r.headers "X-RateLimit-Remaining") &&
      strTruthy (r.headers "X-RateLimit-Reset")) = false →
      extractRateLimit r = none) := by
  constructor
  · simp [makeRequest, requestLoop, henv, hok, hbody]
  · intro h
    simp [extractRateLimit, h]

/-- A 200 response carrying a payload and only one of the three
rate-limit headers. -/
def respOkPartialRL : HttpResponse :=
  { status := 200
    statusText := "OK"
    headers := fun k => if k = "X-RateLimit-Limit" then some "100" else none
    body := .ok (Json.obj [("id", Json.str "123"), ("name", Json.str "X")]) }

/-- Environment serving `respOkPartialRL`. -/
def envOkPartialRL : Nat → AttemptOutcome :=
  fun _ => .response respOkPartialRL

/-- Witness for C5: the 200 body is returned as-is and the partial
rate-limit headers yield no rate-limit field. -/
theorem warden_success_merge_witness :
    makeRequest 3 envOkPartialRL =
      { result := .ok
          { data := Json.obj [("id", Json.str "123"), ("name", Json.str "X")]
            rateLimit := none }
        delays := []
        attemptsMade := 1 } := by
  have h := warden_success_merge 3 envOkPartialRL respOkPartialRL
    (Json.obj [("id", Json.str "123"), ("name", Json.str "X")]) rfl rfl rfl
  rw [h.1, h.2 rfl]

/-- A 200 response with all three rate-limit headers present but a
malformed (non-numeric) limit value. -/
def respMalformedRL : HttpResponse :=
  { status := 200
    statusText := "OK"
    headers := fun k =>
      if k = "X-RateLimit-Limit" then some "abc"
      else if k = "X-RateLimit-Remaining" then some "5"
      else if k = "X-RateLimit-Reset" then some "100"
      else none
    body := .ok Json.null }

/-- Counterexample to C6 as stated: with all three headers present but
the limit malformed (`"abc"`, which `parseInt` maps to `NaN`), the code
still produces a `RateLimitInfo` — malformed headers do not suppress
it. -/
theorem warden_rate_limit_malformed_cex :
    jsParseInt "abc" = JsNum.nan ∧
    extractRateLimit respMalformedRL ≠ none ∧
    extractRateLimit respMalformedRL =
      some { limit := .nan, remaining := .int 5, reset := .int 100, retryAfter := none } := by
  refine ⟨rfl, ?_, by decide⟩
  decide

/-- C6 (amended): `RateLimitInfo` is extracted from every response's
headers and is present exactly when all three of the limit, remaining
and reset headers are present and nonempty; partial header sets yield
no `RateLimitInfo`, but malformed present values are carried through
(as `NaN`) rather than suppressing it. -/
theorem warden_rate_limit_presence (r : HttpResponse) :
    (extractRateLimit r).isSome =
      (strTruthy (r.headers "X-RateLimit-Limit") &&
       strTruthy (r.headers "X-RateLimit-Remaining") &&
       strTruthy (r.headers "X-RateLimit-Reset")) := by
  cases hc : strTruthy (r.headers "X-RateLimit-Limit") &&
      strTruthy (r.headers "X-RateLimit-Remaining") &&
      strTruthy (r.headers "X-RateLimit-Reset") with
  | true => simp [extractRateLimit, hc]
  | false => simp [extractRateLimit, hc]

/-- C7: constructing with an empty or missing API key fails with the
configuration error; a key without the `wd_` prefix fails with the
prefix error; a well-formed key succeeds and omitted fields receive the
documented defaults (base URL, 10000 ms timeout, 3 retries).  The
resolved configuration is a `private readonly` field in the source and
a plain immutable value here. -/
theorem warden_constructor_validation (c : WardenConfig) :
    (apiKeyTruthy c = false → mkWardenAPI c = .error "API key is required") ∧
    (∀ key, c.apiKey = some key → key ≠ "" → strStartsWith key "wd_" = false →
      mkWardenAPI c = .error "API key must start with \"wd_\"") ∧
    (∀ key, c.apiKey = some key → strStartsWith key "wd_" = true →
      c.baseUrl = none → c.timeout = none → c.retries = none →
      mkWardenAPI c = .ok
        { apiKey := key
          baseUrl := "https://api.iitranq.co.uk/api/v1"
          timeout := 10000
          retries := 3 }) := by
  refine ⟨?_, ?_, ?_⟩
  · intro h
    simp [mkWardenAPI, h]
  · intro key hk hne hpre
    simp [mkWardenAPI, apiKeyTruthy, strTruthy, hk, hne, hpre]
  · intro key hk hpre hb ht hr
    have hne : key ≠ "" := by
      intro h0
      rw [h0] at hpre
      exact absurd hpre (by decide)
    simp [mkWardenAPI, apiKeyTruthy, strTruthy, hk, hne, hpre, hb, ht, hr,
      jsOrString, jsOrNum]

/-- Witness for C7: the three constructor behaviours at concrete
configurations. -/
theorem warden_constructor_validation_witness :
    mkWardenAPI { apiKey := some "", baseUrl := none, timeout := none, retries := none } =
      .error "API key is required" ∧
    mkWardenAPI { apiKey := some "sk_abc", baseUrl := none, timeout := none, retries := none } =
      .error "API key must start with \"wd_\"" ∧
    mkWardenAPI { apiKey := some "wd_abc", baseUrl := none, timeout := none, retries := none } =
      .ok { apiKey := "wd_abc"
            baseUrl := "https://api.iitranq.co.uk/api/v1"
            timeout := 10000
            retries := 3 } := by
  refine ⟨?_, ?_, ?_⟩
  · exact (warden_constructor_validation _).1 (by decide)
  · exact (warden_constructor_validation _).2.1 "sk_abc" rfl (by decide) (by decide)
  · exact (warden_constructor_validation _).2.2 "wd_abc" rfl (by decide) rfl rfl rfl

/-- C9: the `||`-based defaulting coerces falsy explicit values — a
constructed client with explicit `retries: 0` gets the default budget 3
and explicit `timeout: 0` gets 10000, so a zero retry budget cannot be
configured. -/
theorem warden_zero_config_coerced (c : WardenConfig) (cfg : ResolvedConfig)
    (h : mkWardenAPI c = .ok cfg) :
    (c.retries = some 0 → cfg.retries = 3) ∧
    (c.timeout = some 0 → cfg.timeout = 10000) := by
  unfold mkWardenAPI at h
  split at h
  · simp at h
  · split at h
    · simp at h
    · rw [Except.ok.injEq] at h
      subst h
      constructor
      · intro h0
        simp [jsOrNum, h0]
      · intro h0
        simp [jsOrNum, h0]

/-- Witness for C9: explicit zero timeout and retries are replaced by
the defaults. -/
theorem warden_zero_config_coerced_witness :
    mkWardenAPI { apiKey := some "wd_k", baseUrl := none, timeout := some 0, retries := some 0 } =
      .ok { apiKey := "wd_k"
            baseUrl := "https://api.iitranq.co.uk/api/v1"
            timeout := 10000
            retries := 3 } ∧
    ({ apiKey := "wd_k"
       baseUrl := "https://api.iitranq.co.uk/api/v1"
       timeout := 10000
       retries := 3 } : ResolvedConfig).retries = 3 := by
  refine ⟨rfl, ?_⟩
  exact (warden_zero_config_coerced
    { apiKey := some "wd_k", baseUrl := none, timeout := some 0, retries := some 0 }
    { apiKey := "wd_k"
      baseUrl := "https://api.iitranq.co.uk/api/v1"
      timeout := 10000
      retries := 3 } rfl).1 rfl

/-- C4: when `makeRequest` fails with a `WardenAPIError` of status 404,
the four single-lookup façades swallow it into the soft
`{ error: "Server not found" }` / `{ error: "User not found" }` result,
while the batch `checkServers` and `makeRequest` itself surface the
same thrown error; a `WardenAPIError` with any other status propagates
unchanged from every façade. -/
theorem warden_facade_404 (retries : Nat) (env : Nat → AttemptOutcome)
    (e : WardenAPIError) (h : (makeRequest retries env).result = .error (.warden e)) :
    (e.statusCode = some 404 →
      (∀ sid, checkServerById retries env sid = .ok (.softError "Server not found")) ∧
      (∀ sname, checkServerByName retries env sname = .ok (.softError "Server not found")) ∧
      (∀ uid, checkUserById retries env uid = .ok (.softError "User not found")) ∧
      (∀ sid, getServerInfo retries env sid = .ok (.softError "Server not found")) ∧
      (∀ servers, checkServers retries env servers = .error (.warden e)) ∧
      (makeRequest retries env).result = .error (.warden e)) ∧
    (e.statusCode ≠ some 404 →
      (∀ sid, checkServerById retries env sid = .error (.warden e)) ∧
      (∀ sname, checkServerByName retries env sname = .error (.warden e)) ∧
      (∀ uid, checkUserById retries env uid = .error (.warden e)) ∧
      (∀ sid, getServerInfo retries env sid = .error (.warden e))) := by
  constructor
  · intro h404
    refine ⟨fun sid => ?_, fun sname => ?_, fun uid => ?_, fun sid => ?_,
      fun servers => ?_, h⟩ <;>
      simp [checkServerById, checkServerByName, checkUserById, getServerInfo,
        checkServers, h, is404, h404]
  · intro h404
    refine ⟨fun sid => ?_, fun sname => ?_, fun uid => ?_, fun sid => ?_⟩ <;>
      simp [checkServerById, checkServerByName, checkUserById, getServerInfo,
        h, is404, h404]

/-- A plain 404 response with an empty JSON object body. -/
def resp404 : HttpResponse :=
  { status := 404
    statusText := "Not Found"
    headers := fun _ => none
    body := .ok (Json.obj []) }

/-- Environment serving the 404 on every attempt. -/
def env404 : Nat → AttemptOutcome :=
  fun _ => .response resp404

/-- The `WardenAPIError` that `makeRequest` constructs from `resp404`. -/
def err404 : WardenAPIError :=
  { message := "HTTP 404: Not Found"
    statusCode := some 404
    responseData := Json.obj []
    rateLimit := none }

/-- Witness for C4: against a 404-serving network, the single lookups
return soft results while the batch lookup surfaces the thrown 404
error. -/
theorem warden_facade_404_witness :
    checkServerById 3 env404 "123" = .ok (.softError "Server not found") ∧
    checkServerByName 3 env404 "X" = .ok (.softError "Server not found") ∧
    checkUserById 3 env404 "u1" = .ok (.softError "User not found") ∧
    getServerInfo 3 env404 "123" = .ok (.softError "Server not found") ∧
    checkServers 3 env404 [] = .error (.warden err404) := by
  have h := (warden_facade_404 3 env404 err404 rfl).1 rfl
  exact ⟨h.1 "123", h.2.1 "X", h.2.2.1 "u1", h.2.2.2.1 "123", h.2.2.2.2.1 []⟩

/-- C8: the flagged checks report true exactly when the underlying
lookup result (from `getServerInfo` / `checkUserById`) has no truthy
error marker and has a truthy (for a string identifier: nonempty) `id`
field, and false whenever an error marker is present or the identifier
is absent or empty. -/
theorem warden_flagged_iff (retries : Nat) (env : Nat → AttemptOutcome)
    (sid uid : String) (sresp uresp : LookupResponse)
    (hs : getServerInfo retries env sid = .ok sresp)
    (hu : checkUserById retries env uid = .ok uresp) :
    (isServerFlagged retries env sid = .ok true ↔
      respErrorTruthy sresp = false ∧ respIdTruthy sresp = true) ∧
    (isUserFlagged retries env uid = .ok true ↔
      respErrorTruthy uresp = false ∧ respIdTruthy uresp = true) ∧
    (respErrorTruthy sresp = true ∨ respIdTruthy sresp = false →
      isServerFlagged retries env sid = .ok false) ∧
    (respErrorTruthy uresp = true ∨ respIdTruthy uresp = false →
      isUserFlagged retries env uid = .ok false) ∧
    (∀ v s, jsGetField v.data "id" = some (Json.str s) →
      (respIdTruthy (.payload v) = true ↔ s ≠ "")) ∧
    (∀ v, jsGetField v.data "error" = none →
      respErrorTruthy (.payload v) = false) := by
  refine ⟨?_, ?_, ?_, ?_, ?_, ?_⟩
  · cases he : respErrorTruthy sresp <;> cases hi : respIdTruthy sresp <;>
      simp [isServerFlagged, hs, he, hi]
  · cases he : respErrorTruthy uresp <;> cases hi : respIdTruthy uresp <;>
      simp [isUserFlagged, hu, he, hi]
  · intro hcase
    rcases hcase with he | hi
    · simp [isServerFlagged, hs, he]
    · simp [isServerFlagged, hs, hi]
  · intro hcase
    rcases hcase with he | hi
    · simp [isUserFlagged, hu, he]
    · simp [isUserFlagged, hu, hi]
  · intro v s hf
    simp [respIdTruthy, hf, jsTruthy]
  · intro v hf
    simp [respErrorTruthy, hf]

/-- A 200 response carrying a flagged-entity record with a nonempty
`id`. -/
def respFlaggedEntity : HttpResponse :=
  { status := 200
    statusText := "OK"
    headers := fun _ => none
    body := .ok (Json.obj [("id", Json.str "123"), ("type", Json.str "CHEATING")]) }

/-- Environment serving the flagged-entity record. -/
def envFlaggedEntity : Nat → AttemptOutcome :=
  fun _ => .response respFlaggedEntity

/-- Witness for C8: a lookup returning a record with nonempty `id` and
no `error` makes both flagged checks report true. -/
theorem warden_flagged_iff_witness :
    isServerFlagged 3 envFlaggedEntity "123" = .ok true ∧
    isUserFlagged 3 envFlaggedEntity "123" = .ok true := by
  have h := warden_flagged_iff 3 envFlaggedEntity "123" "123"
    (.payload { data := Json.obj [("id", Json.str "123"), ("type", Json.str "CHEATING")]
                rateLimit := none })
    (.payload { data := Json.obj [("id", Json.str "123"), ("type", Json.str "CHEATING")]
                rateLimit := none })
    rfl rfl
  exact ⟨h.1.mpr ⟨rfl, rfl⟩, h.2.1.mpr ⟨rfl, rfl⟩⟩
